import Mathlib

/-
Verification of the prompt-conversion module `evals/prompt/base.py`.

The module converts between a flat text prompt and a chat prompt (a list
of role-tagged messages).  We embed the Python functions shallowly:

* A Python message dictionary becomes `Message`, a record of optional
  string fields (`none` models a missing key).
* A dynamically-typed prompt value becomes `RawPrompt`: a string, a token
  list, or a chat message list.  The Python empty list `[]` is represented
  canonically by `RawPrompt.chat []`; `RawPrompt.tokens ns` represents a
  `list[int]` value, and `is_chat_prompt` treats `tokens []` as a chat
  prompt exactly as Python does (where `all` over an empty list is true).
* Python exceptions become `Except PromptError`: `invalidInput` models an
  `assert` failure, `attributeError` models calling a method on `None`
  (e.g. `None.capitalize()`), and `keyError` models a `dict` lookup of a
  missing key.
-/

set_option autoImplicit false

namespace Evals

/-- A chat message: a Python dict with optional keys `role`, `content`,
`name`, `recipient`.  A `none` field models an absent key. -/
structure Message where
  role : Option String
  content : Option String
  name : Option String
  recipient : Option String
deriving DecidableEq

/-- A dynamically-typed prompt value, as passed to the Python functions. -/
inductive RawPrompt where
  | text (s : String)
  | tokens (ns : List Nat)
  | chat (msgs : List Message)
deriving DecidableEq

/-- The ways the Python functions can raise. -/
inductive PromptError where
  | invalidInput
  | attributeError
  | keyError
deriving DecidableEq

/-- `is_chat_prompt(prompt)`: `isinstance(prompt, list) and all(isinstance(msg, dict) for msg in prompt)`.
An empty `list[int]` value satisfies the predicate because `all` of an
empty iterable is true in Python. -/
def is_chat_prompt : RawPrompt → Bool
  | .chat _ => true
  | .tokens ns => ns.isEmpty
  | .text _ => false

/-- The `chat_to_prefixes` table of `chat_prompt_to_text_prompt`. -/
def chat_to_prefixes (r : String) : Option String :=
  if r = "system" then some ""
  else if r = "user" then some "User"
  else if r = "assistant" then some "Assistant"
  else if r = "example_user" then some "User"
  else if r = "example_assistant" then some "Assistant"
  else if r = "tool" then some "Tool"
  else none

/-- Python `str.capitalize()`: first character upper-cased, the rest
lower-cased. -/
def pyCapitalize (s : String) : String :=
  match s.data with
  | [] => ""
  | c :: cs => ⟨c.toUpper :: cs.map Char.toLower⟩

/-- Python `str.lstrip()`: drop leading whitespace characters. -/
def pyLstrip (s : String) : String :=
  ⟨s.data.dropWhile Char.isWhitespace⟩

/-- One iteration of the rendering loop of `chat_prompt_to_text_prompt`:
compute the display label for the role (raising `attributeError` when the
`role` key is absent, since Python evaluates `role.capitalize()` eagerly),
append the optional name and recipient decorations, add the `": "`
separator when the label is non-empty, and look up `msg["content"]`
(raising `keyError` when absent). -/
def renderMsgLine (msg : Message) : Except PromptError String :=
  match msg.role with
  | none => .error .attributeError
  | some role =>
    let pfx := (chat_to_prefixes role).getD (pyCapitalize role)
    let pfx := match msg.name with
      | some n => pfx ++ " (" ++ n ++ ")"
      | none => pfx
    let pfx := match msg.recipient with
      | some r => pfx ++ " -> " ++ ((chat_to_prefixes r).getD r)
      | none => pfx
    let pfx := if pfx = "" then pfx else pfx ++ ": "
    match msg.content with
    | none => .error .keyError
    | some c => .ok (pfx ++ c)

/-- The rendering loop of `chat_prompt_to_text_prompt`, message by message,
stopping at the first raised exception. -/
def renderLines : List Message → Except PromptError (List String)
  | [] => .ok []
  | msg :: rest =>
    match renderMsgLine msg with
    | .error e => .error e
    | .ok l =>
      match renderLines rest with
      | .error e => .error e
      | .ok ls => .ok (l :: ls)

/-- The body of `chat_prompt_to_text_prompt` after the `assert`: the
single-message shortcut returns `prompt[0]["content"]`; otherwise the
lines are joined with newline, `chat_to_prefixes["assistant"] + ": "` is
appended, and the result is left-stripped. -/
def renderChatBody (msgs : List Message) : Except PromptError String :=
  match msgs with
  | [m] =>
    match m.content with
    | some c => .ok c
    | none => .error .keyError
  | _ =>
    match renderLines msgs with
    | .error e => .error e
    | .ok ls =>
      .ok (pyLstrip (String.intercalate "\n" ls ++
        ((chat_to_prefixes "assistant").getD "" ++ ": ")))

/-- `chat_prompt_to_text_prompt(prompt)`: asserts `is_chat_prompt(prompt)`
(an untyped value failing the predicate raises, modelled as
`invalidInput`), then renders.  `tokens []` passes the assert and renders
like the empty chat prompt, as in Python. -/
def chat_prompt_to_text_prompt (p : RawPrompt) : Except PromptError String :=
  match p with
  | .chat msgs => renderChatBody msgs
  | .tokens ns => if ns.isEmpty then renderChatBody [] else .error .invalidInput
  | .text _ => .error .invalidInput

/-- One iteration of the loop of `_prepare_chat_prompt`: the unconditional
lookups `msg["role"]` and `msg["content"]` raise `keyError` on a missing
key; a `tool` message becomes an assistant message with an optional
`Tool (name): ` content marker; an assistant message with a recipient
becomes an assistant message with a `To recipient: ` content marker (the
fresh dict carries only `role` and `content`); everything else is passed
through unchanged. -/
def prepareMsg (msg : Message) : Except PromptError Message :=
  match msg.role with
  | none => .error .keyError
  | some role =>
    match msg.content with
    | none => .error .keyError
    | some content =>
      if role = "tool" then
        let contentPfx := match msg.name with
          | some n => "Tool (" ++ n ++ "): "
          | none => ""
        .ok ⟨some "assistant", some (contentPfx ++ content), none, none⟩
      else if role = "assistant" then
        match msg.recipient with
        | some r => .ok ⟨some "assistant", some ("To " ++ r ++ ": " ++ content), none, none⟩
        | none => .ok msg
      else
        .ok msg

/-- `_prepare_chat_prompt(prompt)`: apply `prepareMsg` to each message in
order, appending the results; the first exception propagates. -/
def prepare_chat_prompt : List Message → Except PromptError (List Message)
  | [] => .ok []
  | msg :: rest =>
    match prepareMsg msg with
    | .error e => .error e
    | .ok m =>
      match prepare_chat_prompt rest with
      | .error e => .error e
      | .ok ms => .ok (m :: ms)

/-- `text_prompt_to_chat_prompt(prompt)`: asserts `isinstance(prompt, str)`
and wraps the string as a single system message. -/
def text_prompt_to_chat_prompt : RawPrompt → Except PromptError (List Message)
  | .text s => .ok [⟨some "system", some s, none, none⟩]
  | .tokens _ => .error .invalidInput
  | .chat _ => .error .invalidInput

/-- `CompletionPrompt.to_openai_create_prompt`: a chat prompt is rendered
as text, anything else is returned unchanged. -/
def CompletionPrompt.to_openai_create_prompt (raw : RawPrompt) :
    Except PromptError RawPrompt :=
  match raw with
  | .chat msgs =>
    match renderChatBody msgs with
    | .error e => .error e
    | .ok s => .ok (.text s)
  | .tokens ns =>
    if ns.isEmpty then
      match renderChatBody [] with
      | .error e => .error e
      | .ok s => .ok (.text s)
    else .ok (.tokens ns)
  | .text s => .ok (.text s)

/-- `ChatCompletionPrompt.to_openai_create_prompt`: a chat prompt is
normalised by `_prepare_chat_prompt`; anything else is wrapped by
`text_prompt_to_chat_prompt`. -/
def ChatCompletionPrompt.to_openai_create_prompt (raw : RawPrompt) :
    Except PromptError (List Message) :=
  match raw with
  | .chat msgs => prepare_chat_prompt msgs
  | .tokens ns =>
    if ns.isEmpty then prepare_chat_prompt []
    else text_prompt_to_chat_prompt (.tokens ns)
  | .text s => text_prompt_to_chat_prompt (.text s)

/-- C1 (counterexample): on the two-message prompt
`[{"role":"user","content":"Hi"}, {"role":"assistant","content":"Hello"}]`
the rendering is not the claimed string with a newline before the trailing
`"Assistant: "` marker, because the code appends the marker directly to
the joined lines. -/
theorem c1_counterexample :
    chat_prompt_to_text_prompt (.chat
      [⟨some "user", some "Hi", none, none⟩,
       ⟨some "assistant", some "Hello", none, none⟩]) ≠
    Except.ok "User: Hi\nAssistant: Hello\nAssistant: " := by
  intro h
  rw [show chat_prompt_to_text_prompt (.chat
      [⟨some "user", some "Hi", none, none⟩,
       ⟨some "assistant", some "Hello", none, none⟩]) =
      Except.ok "User: Hi\nAssistant: HelloAssistant: " from rfl] at h
  exact absurd (Except.ok.inj h) (by decide)

/-- C1 (amended): the two-message prompt renders to
`"User: Hi\nAssistant: HelloAssistant: "`: the rendered lines are joined
by newline and the trailing `"Assistant: "` generation marker is appended
directly, with no separating newline; leading whitespace is stripped. -/
theorem c1_two_message_render :
    chat_prompt_to_text_prompt (.chat
      [⟨some "user", some "Hi", none, none⟩,
       ⟨some "assistant", some "Hello", none, none⟩]) =
    Except.ok "User: Hi\nAssistant: HelloAssistant: " := rfl

/-- C2 (counterexample): the empty chat prompt does not fail: it passes
the `is_chat_prompt` assertion (an empty list vacuously satisfies the
predicate) and returns the bare marker string. -/
theorem c2_counterexample :
    chat_prompt_to_text_prompt (.chat []) = Except.ok "Assistant: " ∧
    chat_prompt_to_text_prompt (.chat []) ≠ Except.error PromptError.invalidInput := by
  refine ⟨rfl, fun h => ?_⟩
  rw [show chat_prompt_to_text_prompt (.chat []) = Except.ok "Assistant: " from rfl] at h
  exact Except.noConfusion h

/-- C2 (amended): `chat_prompt_to_text_prompt` applied to the empty
ChatPrompt succeeds and returns exactly the string `"Assistant: "`
(the trailing generation marker alone); it does not raise. -/
theorem c2_empty_chat_renders_marker :
    chat_prompt_to_text_prompt (.chat []) = Except.ok "Assistant: " := rfl

/-- C3: for every ChatPrompt with exactly one message whose `content` is
the string `c`, rendering returns `c` verbatim — no role prefix and no
trailing `"Assistant: "` marker — whatever the message's role, name or
recipient fields are. -/
theorem c3_single_message_content (m : Message) (c : String)
    (h : m.content = some c) :
    chat_prompt_to_text_prompt (.chat [m]) = Except.ok c := by
  simp [chat_prompt_to_text_prompt, renderChatBody, h]

/-- Witness for C3 at a concrete single-message prompt. -/
theorem c3_witness :
    (⟨some "user", some "hey", none, none⟩ : Message).content = some "hey" ∧
    chat_prompt_to_text_prompt (.chat [⟨some "user", some "hey", none, none⟩]) =
      Except.ok "hey" :=
  ⟨rfl, c3_single_message_content ⟨some "user", some "hey", none, none⟩ "hey" rfl⟩

/-- C4: for every string `s`, wrapping `s` as a chat prompt and rendering
the result back to text is the identity: the wrapper produces a
single-message prompt and the single-message shortcut returns its content
verbatim. -/
theorem c4_roundtrip (s : String) :
    (text_prompt_to_chat_prompt (.text s)).bind
      (fun msgs => chat_prompt_to_text_prompt (.chat msgs)) = Except.ok s := rfl

/-- C5: the normalizer maps every message with role `"tool"` and content
`c` to an assistant message whose content is `"Tool (n): " ++ c` when the
message carries a name `n` and `c` unchanged otherwise; in particular
`{"role":"tool","name":"calc","content":"4"}` maps to
`{"role":"assistant","content":"Tool (calc): 4"}`. -/
theorem c5_tool_message (m : Message) (c : String)
    (hr : m.role = some "tool") (hc : m.content = some c) :
    (m.name = none →
      prepareMsg m = Except.ok ⟨some "assistant", some c, none, none⟩) ∧
    (∀ n, m.name = some n →
      prepareMsg m =
        Except.ok ⟨some "assistant", some ("Tool (" ++ n ++ "): " ++ c), none, none⟩) ∧
    prepare_chat_prompt [⟨some "tool", some "4", some "calc", none⟩] =
      Except.ok [⟨some "assistant", some "Tool (calc): 4", none, none⟩] := by
  refine ⟨fun hn => ?_, fun n hn => ?_, rfl⟩
  · simp [prepareMsg, hr, hc, hn]
  · simp [prepareMsg, hr, hc, hn]

/-- Witness for C5 at the concrete tool message of the claim. -/
theorem c5_witness :
    (⟨some "tool", some "4", some "calc", none⟩ : Message).role = some "tool" ∧
    prepareMsg ⟨some "tool", some "4", some "calc", none⟩ =
      Except.ok ⟨some "assistant", some ("Tool (" ++ "calc" ++ "): " ++ "4"), none, none⟩ :=
  ⟨rfl, (c5_tool_message ⟨some "tool", some "4", some "calc", none⟩ "4" rfl rfl).2.1
    "calc" rfl⟩

/-- C6: the normalizer maps every assistant message carrying a recipient
`r` and content `c` to an assistant message with content
`"To " ++ r ++ ": " ++ c`, with both the `name` and `recipient` fields
absent from the output; in particular
`{"role":"assistant","recipient":"user","content":"hi"}` maps to
`{"role":"assistant","content":"To user: hi"}`. -/
theorem c6_assistant_recipient (m : Message) (c r : String)
    (hr : m.role = some "assistant") (hrec : m.recipient = some r)
    (hc : m.content = some c) :
    prepareMsg m =
      Except.ok ⟨some "assistant", some ("To " ++ r ++ ": " ++ c), none, none⟩ ∧
    prepare_chat_prompt [⟨some "assistant", some "hi", none, some "user"⟩] =
      Except.ok [⟨some "assistant", some "To user: hi", none, none⟩] := by
  refine ⟨?_, rfl⟩
  simp [prepareMsg, hr, hc, hrec]

/-- Witness for C6 at the concrete assistant message of the claim. -/
theorem c6_witness :
    (⟨some "assistant", some "hi", none, some "user"⟩ : Message).recipient = some "user" ∧
    prepareMsg ⟨some "assistant", some "hi", none, some "user"⟩ =
      Except.ok ⟨some "assistant", some ("To " ++ "user" ++ ": " ++ "hi"), none, none⟩ :=
  ⟨rfl, (c6_assistant_recipient ⟨some "assistant", some "hi", none, some "user"⟩
    "hi" "user" rfl rfl rfl).1⟩

/-- A well-formed message (both the `role` and `content` keys present)
never makes `prepareMsg` raise. -/
theorem prepareMsg_ok_of_wf (m : Message) (ρ c : String)
    (hr : m.role = some ρ) (hc : m.content = some c) :
    ∃ m2, prepareMsg m = Except.ok m2 := by
  unfold prepareMsg
  rw [hr, hc]
  by_cases h1 : ρ = "tool"
  · simp [h1]
  · by_cases h2 : ρ = "assistant"
    · cases hrec : m.recipient <;> simp [h1, h2, hrec]
    · simp [h1, h2]

/-- A well-formed message that is neither a tool message nor an assistant
message with a recipient is passed through unchanged by `prepareMsg`. -/
theorem prepareMsg_passthrough (m : Message) (ρ c : String)
    (hr : m.role = some ρ) (hc : m.content = some c)
    (ht : ρ ≠ "tool") (ha : ρ = "assistant" → m.recipient = none) :
    prepareMsg m = Except.ok m := by
  unfold prepareMsg
  rw [hr, hc]
  by_cases h2 : ρ = "assistant"
  · simp [ht, h2, ha h2]
  · simp [ht, h2]

/-- On a list of well-formed messages `prepare_chat_prompt` succeeds and
relates input to output positionally: any input message that is neither a
tool message nor an assistant message with a recipient reappears unchanged
at its position. -/
theorem prepare_chat_prompt_spec (msgs : List Message)
    (hwf : ∀ m ∈ msgs, m.role.isSome ∧ m.content.isSome) :
    ∃ out, prepare_chat_prompt msgs = Except.ok out ∧
      List.Forall₂ (fun src dst =>
        src.role ≠ some "tool" →
        (src.role = some "assistant" → src.recipient = none) →
        dst = src) msgs out := by
  induction msgs with
  | nil => exact ⟨[], rfl, List.Forall₂.nil⟩
  | cons m rest ih =>
    have hm := hwf m (List.mem_cons_self m rest)
    obtain ⟨ρ, hρ⟩ := Option.isSome_iff_exists.mp hm.1
    obtain ⟨c, hc⟩ := Option.isSome_iff_exists.mp hm.2
    obtain ⟨m2, hm2⟩ := prepareMsg_ok_of_wf m ρ c hρ hc
    obtain ⟨out, hout, hfa⟩ := ih fun x hx => hwf x (List.mem_cons_of_mem m hx)
    refine ⟨m2 :: out, ?_, List.Forall₂.cons (fun ht ha => ?_) hfa⟩
    · unfold prepare_chat_prompt
      rw [hm2, hout]
    · have hρt : ρ ≠ "tool" := fun h => ht (h ▸ hρ)
      have hρa : ρ = "assistant" → m.recipient = none := fun h => ha (h ▸ hρ)
      have hpass := prepareMsg_passthrough m ρ c hρ hc hρt hρa
      exact Except.ok.inj (hm2.symm.trans hpass)

/-- C7: on every ChatPrompt of well-formed messages the normalizer
succeeds, returns a list of the same length, and every message that is
neither a tool message nor an assistant message with a recipient —
including system, user and assistant-without-recipient messages — appears
unchanged at its original position (positional pairing via `Forall₂`). -/
theorem c7_normalizer_shape (msgs : List Message)
    (hwf : ∀ m ∈ msgs, m.role.isSome ∧ m.content.isSome) :
    ∃ out, prepare_chat_prompt msgs = Except.ok out ∧
      out.length = msgs.length ∧
      List.Forall₂ (fun src dst =>
        src.role ≠ some "tool" →
        (src.role = some "assistant" → src.recipient = none) →
        dst = src) msgs out := by
  obtain ⟨out, h1, h2⟩ := prepare_chat_prompt_spec msgs hwf
  exact ⟨out, h1, h2.length_eq.symm, h2⟩

/-- Witness for C7 on a concrete two-message prompt. -/
theorem c7_witness :
    (∀ m ∈ ([⟨some "system", some "s", none, none⟩,
             ⟨some "user", some "x", none, none⟩] : List Message),
      m.role.isSome ∧ m.content.isSome) ∧
    (∃ out, prepare_chat_prompt
        [⟨some "system", some "s", none, none⟩,
         ⟨some "user", some "x", none, none⟩] = Except.ok out ∧
      out.length = ([⟨some "system", some "s", none, none⟩,
                     ⟨some "user", some "x", none, none⟩] : List Message).length ∧
      List.Forall₂ (fun src dst =>
        src.role ≠ some "tool" →
        (src.role = some "assistant" → src.recipient = none) →
        dst = src)
        [⟨some "system", some "s", none, none⟩,
         ⟨some "user", some "x", none, none⟩] out) :=
  ⟨by decide, c7_normalizer_shape _ (by decide)⟩

/-- C8: for every string `s`, `text_prompt_to_chat_prompt` returns the
single-element chat prompt `[{"role":"system","content":s}]` with the
content unchanged, and `ChatCompletionPrompt.to_openai_create_prompt` on
the raw string `s` returns the same. -/
theorem c8_text_wrap (s : String) :
    text_prompt_to_chat_prompt (.text s) =
      Except.ok [⟨some "system", some s, none, none⟩] ∧
    ChatCompletionPrompt.to_openai_create_prompt (.text s) =
      Except.ok [⟨some "system", some s, none, none⟩] :=
  ⟨rfl, rfl⟩

/-- C9: `chat_prompt_to_text_prompt` fails with `invalidInput` on every
value that does not satisfy the chat-prompt predicate, and
`text_prompt_to_chat_prompt` fails with `invalidInput` on every value
that is not a string; being `Except`-valued, each operation either fully
succeeds or fails with no partial result. -/
theorem c9_invalid_input (p : RawPrompt) :
    (is_chat_prompt p = false →
      chat_prompt_to_text_prompt p = Except.error PromptError.invalidInput) ∧
    ((∀ s, p ≠ .text s) →
      text_prompt_to_chat_prompt p = Except.error PromptError.invalidInput) := by
  constructor
  · intro h
    cases p with
    | text _ => rfl
    | chat msgs => simp [is_chat_prompt] at h
    | tokens ns =>
      simp only [is_chat_prompt] at h
      simp [chat_prompt_to_text_prompt, h]
  · intro h
    cases p with
    | text s => exact absurd rfl (h s)
    | chat msgs => rfl
    | tokens ns => rfl

/-- Witness for C9: a string fails the chat-prompt predicate and makes the
chat renderer raise; a chat list makes the text wrapper raise. -/
theorem c9_witness :
    is_chat_prompt (.text "x") = false ∧
    chat_prompt_to_text_prompt (.text "x") = Except.error PromptError.invalidInput ∧
    text_prompt_to_chat_prompt (.chat []) = Except.error PromptError.invalidInput :=
  ⟨rfl, (c9_invalid_input (.text "x")).1 rfl,
    (c9_invalid_input (.chat [])).2 fun _ h => RawPrompt.noConfusion h⟩

/-- A message whose `role` key is absent makes the rendering loop raise
the modelled `AttributeError` (Python evaluates `role.capitalize()`
eagerly as the `dict.get` default). -/
theorem renderMsgLine_err_noRole (m : Message) (hr : m.role = none) :
    renderMsgLine m = Except.error PromptError.attributeError := by
  simp [renderMsgLine, hr]

/-- A message with a role but no `content` key makes the rendering loop
raise the modelled `KeyError` from `msg["content"]`. -/
theorem renderMsgLine_err_noContent (m : Message) (ρ : String)
    (hr : m.role = some ρ) (hc : m.content = none) :
    renderMsgLine m = Except.error PromptError.keyError := by
  simp [renderMsgLine, hr, hc]

/-- A message with both `role` and `content` renders to some line. -/
theorem renderMsgLine_ok_of_wf (m : Message) (ρ c : String)
    (hr : m.role = some ρ) (hc : m.content = some c) :
    ∃ l, renderMsgLine m = Except.ok l := by
  simp only [renderMsgLine, hr, hc]
  exact ⟨_, rfl⟩

/-- The rendering loop succeeds on a list of well-formed messages. -/
theorem renderLines_ok_of_wf (msgs : List Message)
    (hwf : ∀ m ∈ msgs, m.role.isSome ∧ m.content.isSome) :
    ∃ ls, renderLines msgs = Except.ok ls := by
  induction msgs with
  | nil => exact ⟨[], rfl⟩
  | cons m rest ih =>
    have hm := hwf m (List.mem_cons_self m rest)
    obtain ⟨ρ, hρ⟩ := Option.isSome_iff_exists.mp hm.1
    obtain ⟨c, hc⟩ := Option.isSome_iff_exists.mp hm.2
    obtain ⟨l, hl⟩ := renderMsgLine_ok_of_wf m ρ c hρ hc
    obtain ⟨ls, hls⟩ := ih fun x hx => hwf x (List.mem_cons_of_mem m hx)
    exact ⟨l :: ls, by unfold renderLines; rw [hl, hls]⟩

/-- The rendering loop raises an `AttributeError` or a `KeyError` — never
the assertion's `invalidInput` — as soon as some message lacks `role` or
`content`. -/
theorem renderLines_err_of_bad (msgs : List Message)
    (hbad : ∃ m ∈ msgs, m.role = none ∨ m.content = none) :
    ∃ e, renderLines msgs = Except.error e ∧ e ≠ PromptError.invalidInput := by
  induction msgs with
  | nil => obtain ⟨m, hm, _⟩ := hbad; exact absurd hm (List.not_mem_nil m)
  | cons m rest ih =>
    cases hρ : m.role with
    | none =>
      refine ⟨PromptError.attributeError, ?_, by intro h; exact PromptError.noConfusion h⟩
      unfold renderLines
      rw [renderMsgLine_err_noRole m hρ]
    | some ρ =>
      cases hc : m.content with
      | none =>
        refine ⟨PromptError.keyError, ?_, by intro h; exact PromptError.noConfusion h⟩
        unfold renderLines
        rw [renderMsgLine_err_noContent m ρ hρ hc]
      | some c =>
        have hrest : ∃ x ∈ rest, x.role = none ∨ x.content = none := by
          obtain ⟨x, hx, hxbad⟩ := hbad
          rcases List.mem_cons.mp hx with h | h
          · subst h
            rcases hxbad with h | h
            · rw [hρ] at h; exact Option.noConfusion h
            · rw [hc] at h; exact Option.noConfusion h
          · exact ⟨x, h, hxbad⟩
        obtain ⟨l, hl⟩ := renderMsgLine_ok_of_wf m ρ c hρ hc
        obtain ⟨e, he, hne⟩ := ih hrest
        refine ⟨e, ?_, hne⟩
        unfold renderLines
        rw [hl, he]

/-- On a two-or-more-message prompt the body of
`chat_prompt_to_text_prompt` is the joined-lines path. -/
theorem renderChatBody_cons_cons (a b : Message) (rest : List Message) :
    renderChatBody (a :: b :: rest) =
      match renderLines (a :: b :: rest) with
      | .error e => .error e
      | .ok ls =>
        .ok (pyLstrip (String.intercalate "\n" ls ++
          ((chat_to_prefixes "assistant").getD "" ++ ": "))) := rfl

/-- C10: on every ChatPrompt with at least two messages, rendering is
total exactly under the precondition that every message has `role` and
`content`: with the precondition it returns a string; when some message
lacks `role` or `content` it raises an error distinct from the
`invalidInput` assertion failure — an `AttributeError` when the first
message lacks `role` (from `role.capitalize()` on `None`), a `KeyError`
when the first message has a role but no `content`. -/
theorem c10_multi_message_preconditions (msgs : List Message)
    (hlen : 2 ≤ msgs.length) :
    ((∀ m ∈ msgs, m.role.isSome ∧ m.content.isSome) →
      ∃ s, chat_prompt_to_text_prompt (.chat msgs) = Except.ok s) ∧
    ((∃ m ∈ msgs, m.role = none ∨ m.content = none) →
      ∃ e, chat_prompt_to_text_prompt (.chat msgs) = Except.error e ∧
        e ≠ PromptError.invalidInput) ∧
    (∀ m rest, msgs = m :: rest → m.role = none →
      chat_prompt_to_text_prompt (.chat msgs) = Except.error PromptError.attributeError) ∧
    (∀ m rest ρ, msgs = m :: rest → m.role = some ρ → m.content = none →
      chat_prompt_to_text_prompt (.chat msgs) = Except.error PromptError.keyError) := by
  match msgs, hlen with
  | a :: b :: rest, _ =>
    refine ⟨fun hwf => ?_, fun hbad => ?_, fun m rest2 heq hρ => ?_, fun m rest2 ρ heq hρ hc => ?_⟩
    · obtain ⟨ls, hls⟩ := renderLines_ok_of_wf (a :: b :: rest) hwf
      refine ⟨pyLstrip (String.intercalate "\n" ls ++
        ((chat_to_prefixes "assistant").getD "" ++ ": ")), ?_⟩
      show renderChatBody (a :: b :: rest) = _
      rw [renderChatBody_cons_cons, hls]
    · obtain ⟨e, he, hne⟩ := renderLines_err_of_bad (a :: b :: rest) hbad
      refine ⟨e, ?_, hne⟩
      show renderChatBody (a :: b :: rest) = _
      rw [renderChatBody_cons_cons, he]
    · have ha : a = m := (List.cons.inj heq).1
      show renderChatBody (a :: b :: rest) = _
      rw [renderChatBody_cons_cons]
      have : renderLines (a :: b :: rest) = Except.error PromptError.attributeError := by
        unfold renderLines
        rw [renderMsgLine_err_noRole a (ha ▸ hρ)]
      rw [this]
    · have ha : a = m := (List.cons.inj heq).1
      show renderChatBody (a :: b :: rest) = _
      rw [renderChatBody_cons_cons]
      have : renderLines (a :: b :: rest) = Except.error PromptError.keyError := by
        unfold renderLines
        rw [renderMsgLine_err_noContent a ρ (ha ▸ hρ) (ha ▸ hc)]
      rw [this]

/-- Witness for C10: a two-message prompt whose first message lacks the
`role` key renders to the modelled `AttributeError`, not to the assertion
failure. -/
theorem c10_witness :
    2 ≤ ([⟨none, some "x", none, none⟩,
          ⟨some "user", some "y", none, none⟩] : List Message).length ∧
    chat_prompt_to_text_prompt (.chat
      [⟨none, some "x", none, none⟩, ⟨some "user", some "y", none, none⟩]) =
      Except.error PromptError.attributeError :=
  ⟨by decide,
    (c10_multi_message_preconditions
      [⟨none, some "x", none, none⟩, ⟨some "user", some "y", none, none⟩]
      (by decide)).2.2.1 ⟨none, some "x", none, none⟩
      [⟨some "user", some "y", none, none⟩] rfl rfl⟩

end Evals
